import Mathlib

/-!
Shallow embedding of the authentication core of `src/solution/app.py`
(a Flask application: registration, sign-in, password change with
JWT-style version-stamped tokens backed by a user table).

External collaborators (bcrypt, PyJWT, the environment, the SQL store)
are modelled by executable Lean functions capturing their functional
contracts; the route handlers are translated line by line from the
Python source.
-/

namespace App

/-- Model of `bcrypt.hashpw(password, gensalt())`: a salted one-way hash.
The per-call random salt is an explicit parameter; the output embeds the
salt, as a bcrypt hash string does. -/
def hashpw (password : String) (salt : Nat) : String :=
  toString salt ++ "$" ++ password

/-- Model of `bcrypt.checkpw(password, stored)`: re-derive the salt
embedded in the stored hash, recompute the hash of the candidate
password with that salt, and compare with the stored string. -/
def checkpw (password : String) (stored : String) : Bool :=
  stored == ⟨stored.data.takeWhile (fun c => c ≠ '$') ++ '$' :: password.data⟩

/-- Decoded JWT payload: `create_access_token` puts `sub`, `login`,
`token_version` and `exp` into every token it signs (app.py lines 38-44). -/
structure JwtPayload where
  sub : String
  login : String
  token_version : Int
  exp : Nat
deriving DecidableEq

/-- A presented bearer token: either a structure signed with some key
(the signature is modelled by recording the signing key) or a malformed
string that fails structural checks. -/
inductive Token where
  | signed (payload : JwtPayload) (key : String)
  | malformed (raw : String)
deriving DecidableEq

/-- Result of `jwt.decode`: the two PyJWT exceptions caught by the
handler, or the decoded payload. -/
inductive DecodeResult where
  | expired
  | invalid
  | ok (payload : JwtPayload)
deriving DecidableEq

/-- Model of `jwt.decode(token, SECRET_KEY, algorithms=[ALGORITHM])` at
time `now`: structural/signature failure raises `InvalidTokenError`,
`exp <= now` raises `ExpiredSignatureError`, otherwise the payload is
returned. -/
def jwt.decode (t : Token) (key : String) (now : Nat) : DecodeResult :=
  match t with
  | .malformed _ => .invalid
  | .signed p k =>
    if k ≠ key then .invalid
    else if p.exp ≤ now then .expired
    else .ok p

/-- Model of `jwt.encode(payload, SECRET_KEY, algorithm=ALGORITHM)`. -/
def jwt.encode (p : JwtPayload) (key : String) : Token :=
  Token.signed p key

/-- `ACCESS_TOKEN_EXPIRE_MINUTES = 60` (app.py line 24). -/
def ACCESS_TOKEN_EXPIRE_MINUTES : Nat := 60

/-- The subject claims passed to `create_access_token` by `auth_sign_in`. -/
structure TokenData where
  sub : String
  login : String
deriving DecidableEq

/-- Absolute expiration computed by `create_access_token`: `expires_delta`
(seconds) when passed and truthy, otherwise `now` plus 60 minutes.
A zero timedelta is falsy in Python, hence the `d == 0` branch. -/
def tokenExpire (now : Nat) (expires_delta : Option Nat) : Nat :=
  match expires_delta with
  | some d => if d == 0 then now + ACCESS_TOKEN_EXPIRE_MINUTES * 60 else now + d
  | none => now + ACCESS_TOKEN_EXPIRE_MINUTES * 60

/-- `create_access_token(data, token_version, expires_delta)` (app.py
lines 34-45): copies the subject claims, adds `exp` and `token_version`,
and signs with the process key. -/
def create_access_token (data : TokenData) (token_version : Int)
    (expires_delta : Option Nat) (now : Nat) (key : String) : Token :=
  jwt.encode
    { sub := data.sub, login := data.login,
      token_version := token_version, exp := tokenExpire now expires_delta }
    key

/-- Model of `os.getenv(key, default)` over an explicit environment. -/
def getenv (env : String → Option String) (key : String) (dflt : String) : String :=
  (env key).getD dflt

/-- `SECRET_KEY = os.getenv("RANDOM_SECRET", "your_secret_key")`
(app.py line 22). -/
def SECRET_KEY (env : String → Option String) : String :=
  getenv env "RANDOM_SECRET" "your_secret_key"

/-- A row of the `users` table: columns used by the handlers. -/
structure UserRecord where
  id : Nat
  login : String
  password_hash : String
  token_version : Int
deriving DecidableEq

/-- The user store: the `users` table plus the id sequence. -/
structure DB where
  users : List UserRecord
  nextId : Nat
deriving DecidableEq

/-- `SELECT ... FROM users WHERE login = %s` (first match). -/
def DB.findByLogin (db : DB) (l : String) : Option UserRecord :=
  db.users.find? (fun u => u.login == l)

/-- `SELECT ... FROM users WHERE id = %s` where the parameter is the
string token subject (`str(user_id)` at issuance): the integer column is
compared against the textual parameter. -/
def DB.findById (db : DB) (s : String) : Option UserRecord :=
  db.users.find? (fun u => toString u.id == s)

/-- Response bodies produced by the auth handlers. -/
inductive Body where
  | error (msg : String)
  | message (msg : String)
  | token (t : Token)
deriving DecidableEq

/-- An HTTP response: status code and JSON body. -/
abbrev Response := Nat × Body

/-- A Python exception escaping a handler (no route-level catch). -/
inductive PyError where
  | attributeError (msg : String)
deriving DecidableEq

/-- Python truthiness test `not x` for an optional string field:
true when the field is absent (None) or the empty string. -/
def falsy : Option String → Bool
  | none => true
  | some s => s == ""

/-- JSON body of `/api/auth/register`. -/
structure RegisterBody where
  login : Option String
  password : Option String
deriving DecidableEq

/-- JSON body of `/api/auth/sign-in`. -/
structure SignInBody where
  login : Option String
  password : Option String
deriving DecidableEq

/-- JSON body of `/api/me/updatePassword`. -/
structure UpdateBody where
  old_password : Option String
  new_password : Option String
deriving DecidableEq

/-- The `Authorization` header as the handler discriminates it:
absent/falsy, present but not starting with `Bearer `, or a bearer
token. -/
inductive AuthHeader where
  | missing
  | notBearer (raw : String)
  | bearer (t : Token)
deriving DecidableEq

/-- `POST /api/auth/register` (app.py lines 156-201).

`body` is the parsed JSON (`request.get_json()`), `None` when the
request carried no JSON object; reading a field of `None` raises
`AttributeError`, modelled by the `Except.error` branch. `salt` is the
random salt drawn by `bcrypt.gensalt()`. `selectFault`/`insertFault`
inject an exception (its `str(e)` text) into the corresponding SQL
statement of the `try` block; the handler answers 500 with that text and
the connection is closed without commit, leaving the table unchanged.

Modelled from the spec: the DDL of the `users` table is not in the
repository; the INSERT names only `login` and `password_hash`, and per
the spec `token_version` starts at the fixed baseline 0 at creation
(column default), while `id` is assigned by the store sequence. -/
def register_user (db : DB) (body : Option RegisterBody) (salt : Nat)
    (selectFault insertFault : Option String) :
    Except PyError (Response × DB) :=
  match body with
  | none => .error (.attributeError "NoneType object has no attribute get")
  | some data =>
    if falsy data.login || falsy data.password then
      .ok ((400, .error "Login and password are required"), db)
    else
      match selectFault with
      | some e => .ok ((500, .error e), db)
      | none =>
        match db.findByLogin (data.login.getD "") with
        | some _ => .ok ((400, .error "User with this login already exists"), db)
        | none =>
          match insertFault with
          | some e => .ok ((500, .error e), db)
          | none =>
            .ok ((201, .message "User registered successfully!"),
              { users := db.users ++
                  [{ id := db.nextId, login := data.login.getD "",
                     password_hash := hashpw (data.password.getD "") salt,
                     token_version := 0 }],
                nextId := db.nextId + 1 })

/-- `POST /api/auth/sign-in` (app.py lines 204-245). Reads the body,
rejects missing fields, looks the login up, and returns one identical
generic 401 both when the login is absent and when `bcrypt.checkpw`
fails; on success issues a token with the default expiration embedding
the stored `token_version`. The handler never writes to the store. -/
def auth_sign_in (db : DB) (body : Option SignInBody) (now : Nat)
    (key : String) : Except PyError Response :=
  match body with
  | none => .error (.attributeError "NoneType object has no attribute get")
  | some data =>
    if falsy data.login || falsy data.password then
      .ok (400, .error "Login and password are required")
    else
      match db.findByLogin (data.login.getD "") with
      | none => .ok (401, .error "Invalid login or password")
      | some user =>
        if !checkpw (data.password.getD "") user.password_hash then
          .ok (401, .error "Invalid login or password")
        else
          .ok (200, .token (create_access_token
            { sub := toString user.id, login := user.login }
            user.token_version none now key))

/-- The single `UPDATE users SET password_hash = %s,
token_version = token_version + 1 WHERE id = %s` statement (app.py
lines 329-332): one transaction updating both columns of the matching
row together. -/
def applyPasswordUpdate (db : DB) (sub : String) (newHash : String) : DB :=
  { db with users := db.users.map (fun u =>
      if toString u.id == sub then
        { u with password_hash := newHash, token_version := u.token_version + 1 }
      else u) }

/-- `POST /api/me/updatePassword` (app.py lines 249-343).

Order of the source: Authorization-header shape check, `jwt.decode`
(expired and invalid each caught to a 401 with its own message), body
field read (`AttributeError` on a `None` body), missing-field 400, then
inside the `try` block the SELECT by the token subject, the
token-version comparison, the old-password check, and the UPDATE with
commit. An exception in the `try` block rolls back and answers 500 with
`str(e)` (`selectFault`/`updateFault` inject one into the SELECT/UPDATE). -/
def update_password (db : DB) (hdr : AuthHeader) (body : Option UpdateBody)
    (now : Nat) (key : String) (salt : Nat)
    (selectFault updateFault : Option String) :
    Except PyError (Response × DB) :=
  match hdr with
  | .missing => .ok ((401, .error "Authorization token is missing or invalid"), db)
  | .notBearer _ => .ok ((401, .error "Authorization token is missing or invalid"), db)
  | .bearer token =>
    match jwt.decode token key now with
    | .expired => .ok ((401, .error "Token has expired"), db)
    | .invalid => .ok ((401, .error "Invalid token"), db)
    | .ok payload =>
      match body with
      | none => .error (.attributeError "NoneType object has no attribute get")
      | some data =>
        if falsy data.old_password || falsy data.new_password then
          .ok ((400, .error "Old password and new password are required"), db)
        else
          match selectFault with
          | some e => .ok ((500, .error e), db)
          | none =>
            match db.findById payload.sub with
            | none => .ok ((401, .error "User not found"), db)
            | some user =>
              if user.token_version ≠ payload.token_version then
                .ok ((401, .error "Token version mismatch"), db)
              else if !checkpw (data.old_password.getD "") user.password_hash then
                .ok ((401, .error "Old password is incorrect"), db)
              else
                match updateFault with
                | some e => .ok ((500, .error e), db)
                | none =>
                  .ok ((200, .message "Password updated successfully!"),
                    applyPasswordUpdate db payload.sub
                      (hashpw (data.new_password.getD "") salt))

/-! ### Helper lemmas shared by several claims -/

theorem jwt.decode_signed_eq (p : JwtPayload) (key : String) (now : Nat)
    (h : now < p.exp) : jwt.decode (.signed p key) key now = .ok p := by
  simp [jwt.decode, Nat.not_le.mpr h]

theorem jwt.decode_ok_inv {t : Token} {key : String} {now : Nat} {p : JwtPayload}
    (h : jwt.decode t key now = .ok p) : t = .signed p key ∧ now < p.exp := by
  cases t with
  | malformed r => simp [jwt.decode] at h
  | signed q k =>
    simp only [jwt.decode] at h
    split at h
    · cases h
    · split at h
      · cases h
      · next hk he =>
        cases h
        exact ⟨by rw [not_not.mp hk], Nat.not_le.mp he⟩

theorem find?_map_update (s nh : String) (l : List UserRecord) :
    (l.map (fun u => if toString u.id == s then
        { u with password_hash := nh, token_version := u.token_version + 1 }
      else u)).find? (fun u => toString u.id == s)
      = (l.find? (fun u => toString u.id == s)).map (fun u =>
          { u with password_hash := nh, token_version := u.token_version + 1 }) := by
  induction l with
  | nil => rfl
  | cons u us ih =>
    simp only [List.map_cons]
    by_cases hc : (toString u.id == s) = true
    · rw [if_pos hc]
      simp [List.find?_cons, hc]
    · rw [if_neg hc]
      simp only [Bool.not_eq_true] at hc
      simp only [List.find?_cons, hc]
      exact ih

theorem findById_applyPasswordUpdate (db : DB) (s nh : String) :
    (applyPasswordUpdate db s nh).findById s =
      (db.findById s).map (fun u =>
        { u with password_hash := nh, token_version := u.token_version + 1 }) := by
  simp only [applyPasswordUpdate, DB.findById]
  exact find?_map_update s nh db.users

theorem applyPasswordUpdate_mono (db : DB) (s nh : String) :
    ∀ u ∈ db.users, ∃ u' ∈ (applyPasswordUpdate db s nh).users,
      u'.id = u.id ∧ u.token_version ≤ u'.token_version := by
  intro u hu
  by_cases hc : (toString u.id == s) = true
  · refine ⟨{ u with password_hash := nh, token_version := u.token_version + 1 },
      ?_, rfl, ?_⟩
    · exact List.mem_map.mpr ⟨u, hu, by rw [if_pos hc]⟩
    · show u.token_version ≤ u.token_version + 1
      omega
  · exact ⟨u, List.mem_map.mpr ⟨u, hu, by rw [if_neg hc]⟩, rfl, le_refl _⟩

theorem upd_expired_eq (db : DB) (tok : Token) (body : Option UpdateBody)
    (now : Nat) (key : String) (salt : Nat) (sf uf : Option String)
    (h : jwt.decode tok key now = .expired) :
    update_password db (.bearer tok) body now key salt sf uf
      = .ok ((401, .error "Token has expired"), db) := by
  simp only [update_password, h]

theorem upd_invalid_eq (db : DB) (tok : Token) (body : Option UpdateBody)
    (now : Nat) (key : String) (salt : Nat) (sf uf : Option String)
    (h : jwt.decode tok key now = .invalid) :
    update_password db (.bearer tok) body now key salt sf uf
      = .ok ((401, .error "Invalid token"), db) := by
  simp only [update_password, h]

theorem upd_none_body_eq (db : DB) (tok : Token) (p : JwtPayload)
    (now : Nat) (key : String) (salt : Nat) (sf uf : Option String)
    (h : jwt.decode tok key now = .ok p) :
    update_password db (.bearer tok) none now key salt sf uf
      = .error (.attributeError "NoneType object has no attribute get") := by
  simp only [update_password, h]

theorem upd_badRequest_eq (db : DB) (tok : Token) (p : JwtPayload)
    (data : UpdateBody) (now : Nat) (key : String) (salt : Nat)
    (sf uf : Option String)
    (h : jwt.decode tok key now = .ok p)
    (hm : (falsy data.old_password || falsy data.new_password) = true) :
    update_password db (.bearer tok) (some data) now key salt sf uf
      = .ok ((400, .error "Old password and new password are required"), db) := by
  simp only [update_password, h, hm, if_true]

theorem upd_selectFault_eq (db : DB) (tok : Token) (p : JwtPayload)
    (data : UpdateBody) (now : Nat) (key : String) (salt : Nat)
    (e : String) (uf : Option String)
    (h : jwt.decode tok key now = .ok p)
    (ho : falsy data.old_password = false)
    (hn : falsy data.new_password = false) :
    update_password db (.bearer tok) (some data) now key salt (some e) uf
      = .ok ((500, .error e), db) := by
  simp only [update_password, h, ho, hn, Bool.or_false, Bool.false_eq_true,
    if_false]

theorem upd_userNotFound_eq (db : DB) (tok : Token) (p : JwtPayload)
    (data : UpdateBody) (now : Nat) (key : String) (salt : Nat)
    (uf : Option String)
    (h : jwt.decode tok key now = .ok p)
    (ho : falsy data.old_password = false)
    (hn : falsy data.new_password = false)
    (hf : db.findById p.sub = none) :
    update_password db (.bearer tok) (some data) now key salt none uf
      = .ok ((401, .error "User not found"), db) := by
  simp only [update_password, h, ho, hn, Bool.or_false, Bool.false_eq_true,
    if_false, hf]

theorem upd_versionMismatch_eq (db : DB) (tok : Token) (p : JwtPayload)
    (data : UpdateBody) (now : Nat) (key : String) (salt : Nat)
    (uf : Option String) (user : UserRecord)
    (h : jwt.decode tok key now = .ok p)
    (ho : falsy data.old_password = false)
    (hn : falsy data.new_password = false)
    (hf : db.findById p.sub = some user)
    (hv : user.token_version ≠ p.token_version) :
    update_password db (.bearer tok) (some data) now key salt none uf
      = .ok ((401, .error "Token version mismatch"), db) := by
  simp only [update_password, h, ho, hn, Bool.or_false, Bool.false_eq_true,
    if_false, hf]
  rw [if_pos hv]

theorem upd_wrongOldPassword_eq (db : DB) (tok : Token) (p : JwtPayload)
    (data : UpdateBody) (now : Nat) (key : String) (salt : Nat)
    (uf : Option String) (user : UserRecord)
    (h : jwt.decode tok key now = .ok p)
    (ho : falsy data.old_password = false)
    (hn : falsy data.new_password = false)
    (hf : db.findById p.sub = some user)
    (hv : user.token_version = p.token_version)
    (hpw : checkpw (data.old_password.getD "") user.password_hash = false) :
    update_password db (.bearer tok) (some data) now key salt none uf
      = .ok ((401, .error "Old password is incorrect"), db) := by
  simp only [update_password, h, ho, hn, Bool.or_false, Bool.false_eq_true,
    if_false, hf, hv, ne_eq, not_true_eq_false, hpw, Bool.not_false, if_true]

theorem upd_updateFault_eq (db : DB) (tok : Token) (p : JwtPayload)
    (data : UpdateBody) (now : Nat) (key : String) (salt : Nat)
    (e : String) (user : UserRecord)
    (h : jwt.decode tok key now = .ok p)
    (ho : falsy data.old_password = false)
    (hn : falsy data.new_password = false)
    (hf : db.findById p.sub = some user)
    (hv : user.token_version = p.token_version)
    (hpw : checkpw (data.old_password.getD "") user.password_hash = true) :
    update_password db (.bearer tok) (some data) now key salt none (some e)
      = .ok ((500, .error e), db) := by
  simp only [update_password, h, ho, hn, Bool.or_false, Bool.false_eq_true,
    if_false, hf, hv, ne_eq, not_true_eq_false, hpw, Bool.not_true]

theorem update_password_success_char (db : DB) (tok : Token) (p : JwtPayload)
    (data : UpdateBody) (now : Nat) (key : String) (salt : Nat)
    (user : UserRecord)
    (h : jwt.decode tok key now = .ok p)
    (ho : falsy data.old_password = false)
    (hn : falsy data.new_password = false)
    (hf : db.findById p.sub = some user)
    (hv : user.token_version = p.token_version)
    (hpw : checkpw (data.old_password.getD "") user.password_hash = true) :
    update_password db (.bearer tok) (some data) now key salt none none
      = .ok ((200, .message "Password updated successfully!"),
          applyPasswordUpdate db p.sub (hashpw (data.new_password.getD "") salt)) := by
  simp only [update_password, h, ho, hn, Bool.or_false, Bool.false_eq_true,
    if_false, hf, hv, ne_eq, not_true_eq_false, hpw, Bool.not_true]


/-! ### Inversion lemmas for the two mutating handlers -/

theorem register_user_cases (db : DB) (body : Option RegisterBody) (salt : Nat)
    (sf insf : Option String) (res : Response) (db' : DB)
    (h : register_user db body salt sf insf = .ok (res, db')) :
    (res.1 = 201 ∧ ∃ data, body = some data ∧
        falsy data.login = false ∧ falsy data.password = false ∧
        sf = none ∧ insf = none ∧
        db.findByLogin (data.login.getD "") = none ∧
        db' = { users := db.users ++
                  [{ id := db.nextId, login := data.login.getD "",
                     password_hash := hashpw (data.password.getD "") salt,
                     token_version := 0 }],
                nextId := db.nextId + 1 })
    ∨ (res.1 ≠ 201 ∧ db' = db) := by
  cases body with
  | none => exact absurd h (by simp [register_user])
  | some data =>
    simp only [register_user] at h
    split at h
    · cases h
      exact Or.inr ⟨by simp, rfl⟩
    · next hm =>
      rw [Bool.or_eq_true] at hm
      push_neg at hm
      obtain ⟨hl, hp⟩ := hm
      simp only [ne_eq, Bool.not_eq_true] at hl hp
      cases sf with
      | some e =>
        cases h
        exact Or.inr ⟨by simp, rfl⟩
      | none =>
        cases hfind : db.findByLogin (data.login.getD "") with
        | some u =>
          rw [hfind] at h
          cases h
          exact Or.inr ⟨by simp, rfl⟩
        | none =>
          rw [hfind] at h
          cases insf with
          | some e =>
            cases h
            exact Or.inr ⟨by simp, rfl⟩
          | none =>
            cases h
            exact Or.inl ⟨rfl, data, rfl, hl, hp, rfl, rfl, hfind, rfl⟩


theorem update_password_cases (db : DB) (hdr : AuthHeader) (body : Option UpdateBody)
    (now : Nat) (key : String) (salt : Nat) (sf uf : Option String)
    (res : Response) (db' : DB)
    (h : update_password db hdr body now key salt sf uf = .ok (res, db')) :
    (res.1 = 200 ∧ ∃ p data user,
        hdr = .bearer (.signed p key) ∧ now < p.exp ∧
        body = some data ∧
        falsy data.old_password = false ∧ falsy data.new_password = false ∧
        sf = none ∧ uf = none ∧
        db.findById p.sub = some user ∧
        user.token_version = p.token_version ∧
        checkpw (data.old_password.getD "") user.password_hash = true ∧
        res.2 = .message "Password updated successfully!" ∧
        db' = applyPasswordUpdate db p.sub (hashpw (data.new_password.getD "") salt))
    ∨ (res.1 ≠ 200 ∧ db' = db) := by
  cases hdr with
  | missing =>
    simp only [update_password] at h
    cases h
    exact Or.inr ⟨by decide, rfl⟩
  | notBearer raw =>
    simp only [update_password] at h
    cases h
    exact Or.inr ⟨by decide, rfl⟩
  | bearer tok =>
    simp only [update_password] at h
    cases hdec : jwt.decode tok key now with
    | expired =>
      simp only [hdec] at h
      cases h
      exact Or.inr ⟨by decide, rfl⟩
    | invalid =>
      simp only [hdec] at h
      cases h
      exact Or.inr ⟨by decide, rfl⟩
    | ok p =>
      simp only [hdec] at h
      obtain ⟨htok, hexp⟩ := jwt.decode_ok_inv hdec
      cases body with
      | none => simp at h
      | some data =>
        dsimp only at h
        split at h
        · cases h
          exact Or.inr ⟨by decide, rfl⟩
        · next hm =>
          rw [Bool.or_eq_true] at hm
          push_neg at hm
          obtain ⟨ho, hn⟩ := hm
          simp only [ne_eq, Bool.not_eq_true] at ho hn
          cases sf with
          | some e =>
            cases h
            exact Or.inr ⟨by show (500:Nat) ≠ 200; decide, rfl⟩
          | none =>
            cases hfind : db.findById p.sub with
            | none =>
              simp only [hfind] at h
              cases h
              exact Or.inr ⟨by decide, rfl⟩
            | some user =>
              simp only [hfind] at h
              split at h
              · cases h
                exact Or.inr ⟨by decide, rfl⟩
              · next hv =>
                split at h
                · cases h
                  exact Or.inr ⟨by decide, rfl⟩
                · next hpw =>
                  cases uf with
                  | some e =>
                    cases h
                    exact Or.inr ⟨by show (500:Nat) ≠ 200; decide, rfl⟩
                  | none =>
                    cases h
                    push_neg at hv
                    simp at hpw
                    exact Or.inl ⟨rfl, p, data, user, by rw [htok], hexp, rfl, ho, hn,
                      rfl, rfl, hfind, hv, hpw, rfl, rfl⟩



/-! ### Claims -/

/-- C3: for every sign-in request with non-empty login and password, the
unknown-login case and the wrong-password case produce the identical
response: status 401 with the one generic body, revealing nothing about
which check failed. -/
theorem C3_signin_indistinguishable (db : DB) (l pw : String) (now : Nat)
    (key : String) (hl : l ≠ "") (hp : pw ≠ "")
    (hcase : db.findByLogin l = none ∨
      ∃ u, db.findByLogin l = some u ∧ checkpw pw u.password_hash = false) :
    auth_sign_in db (some { login := some l, password := some pw }) now key
      = .ok (401, .error "Invalid login or password") := by
  have hfl : falsy (some l) = false := by simp [falsy, hl]
  have hfp : falsy (some pw) = false := by simp [falsy, hp]
  simp only [auth_sign_in, hfl, hfp, Bool.or_false, Bool.false_eq_true, if_false,
    Option.getD_some]
  rcases hcase with hnone | ⟨u, hu, hpw⟩
  · simp only [hnone]
  · simp only [hu, hpw, Bool.not_false, if_true]

theorem C3_signin_indistinguishable_witness :
    auth_sign_in { users := [], nextId := 1 }
        (some { login := some "alice", password := some "pw" }) 0 "k"
      = .ok (401, .error "Invalid login or password")
    ∧ auth_sign_in
        { users := [{ id := 1, login := "alice",
                      password_hash := hashpw "right" 2, token_version := 0 }],
          nextId := 2 }
        (some { login := some "alice", password := some "wrong" }) 0 "k"
      = .ok (401, .error "Invalid login or password") :=
  ⟨C3_signin_indistinguishable _ "alice" "pw" 0 "k" (by decide) (by decide)
      (Or.inl (by rfl)),
   C3_signin_indistinguishable _ "alice" "wrong" 0 "k" (by decide) (by decide)
      (Or.inr ⟨_, by rfl, by decide⟩)⟩

/-- C7: a token produced by `create_access_token` for given subject
claims, token version and ttl, decoded with the same key at any time
strictly before its expiration, yields exactly the original subject
claims and the embedded token version. -/
theorem C7_token_roundtrip (data : TokenData) (v : Int) (delta : Option Nat)
    (now t : Nat) (key : String) (ht : t < tokenExpire now delta) :
    jwt.decode (create_access_token data v delta now key) key t
      = .ok { sub := data.sub, login := data.login, token_version := v,
              exp := tokenExpire now delta } :=
  jwt.decode_signed_eq _ key t ht

theorem C7_token_roundtrip_witness :
    jwt.decode (create_access_token { sub := "1", login := "alice" } 0 none 0 "k") "k" 3599
      = .ok { sub := "1", login := "alice", token_version := 0, exp := 3600 } :=
  C7_token_roundtrip { sub := "1", login := "alice" } 0 none 0 3599 "k" (by decide)

/-- C9 counterexample: with no configuration present, the secret key is
the hard-coded literal fallback, contradicting the claim that no fixed
literal secret is used when configuration is absent. -/
theorem C9_counterexample : SECRET_KEY (fun _ => none) = "your_secret_key" := rfl

/-- C9 amended: the signing secret equals the configured RANDOM_SECRET
value when it is set, and falls back to the hard-coded literal
"your_secret_key" when the configuration is absent. -/
theorem C9_secret_from_config (env : String → Option String) :
    (∀ v, env "RANDOM_SECRET" = some v → SECRET_KEY env = v)
    ∧ (env "RANDOM_SECRET" = none → SECRET_KEY env = "your_secret_key") := by
  constructor
  · intro v hv
    simp [SECRET_KEY, getenv, hv]
  · intro hv
    simp [SECRET_KEY, getenv, hv]

theorem C9_secret_from_config_witness :
    SECRET_KEY (fun k => if k == "RANDOM_SECRET" then some "s3" else none) = "s3" :=
  (C9_secret_from_config (fun k => if k == "RANDOM_SECRET" then some "s3" else none)).1
    "s3" (by rfl)

/-- C10: a POST with no JSON object body (parsed body None) makes each of
the three handlers raise an AttributeError instead of answering 400; for
update-password this happens exactly when bearer-token verification has
succeeded, while a missing/expired/invalid token still yields 401 even
with a None body. -/
theorem C10_none_body_crash (db : DB) (salt : Nat) (sf insf uf : Option String)
    (now : Nat) (key : String) (tok : Token) (p : JwtPayload) :
    register_user db none salt sf insf
      = .error (.attributeError "NoneType object has no attribute get")
    ∧ auth_sign_in db none now key
      = .error (.attributeError "NoneType object has no attribute get")
    ∧ (jwt.decode tok key now = .ok p →
        update_password db (.bearer tok) none now key salt sf uf
          = .error (.attributeError "NoneType object has no attribute get"))
    ∧ (jwt.decode tok key now = .expired →
        update_password db (.bearer tok) none now key salt sf uf
          = .ok ((401, .error "Token has expired"), db))
    ∧ (jwt.decode tok key now = .invalid →
        update_password db (.bearer tok) none now key salt sf uf
          = .ok ((401, .error "Invalid token"), db))
    ∧ update_password db .missing none now key salt sf uf
      = .ok ((401, .error "Authorization token is missing or invalid"), db) := by
  refine ⟨rfl, rfl, ?_, ?_, ?_, rfl⟩
  · intro h
    exact upd_none_body_eq db tok p now key salt sf uf h
  · intro h
    exact upd_expired_eq db tok none now key salt sf uf h
  · intro h
    exact upd_invalid_eq db tok none now key salt sf uf h

theorem C10_none_body_crash_witness :
    update_password { users := [], nextId := 1 }
        (.bearer (.signed { sub := "1", login := "a", token_version := 0, exp := 9 } "k"))
        none 0 "k" 1 none none
      = .error (.attributeError "NoneType object has no attribute get") :=
  (C10_none_body_crash { users := [], nextId := 1 } 1 none none none 0 "k"
      (.signed { sub := "1", login := "a", token_version := 0, exp := 9 } "k")
      { sub := "1", login := "a", token_version := 0, exp := 9 }).2.2.1 (by rfl)


/-- C4 counterexample: three update-password failures (missing header,
malformed token, expired token) all return 401 but with three different
error messages, so the 401 responses do not carry one generic message. -/
theorem C4_counterexample :
    update_password { users := [], nextId := 1 } .missing
        (some { old_password := some "a", new_password := some "b" }) 10 "k" 1 none none
      = .ok ((401, .error "Authorization token is missing or invalid"),
          { users := [], nextId := 1 })
    ∧ update_password { users := [], nextId := 1 } (.bearer (.malformed "zz"))
        (some { old_password := some "a", new_password := some "b" }) 10 "k" 1 none none
      = .ok ((401, .error "Invalid token"), { users := [], nextId := 1 })
    ∧ update_password { users := [], nextId := 1 }
        (.bearer (.signed { sub := "1", login := "a", token_version := 0, exp := 5 } "k"))
        (some { old_password := some "a", new_password := some "b" }) 10 "k" 1 none none
      = .ok ((401, .error "Token has expired"), { users := [], nextId := 1 })
    ∧ Body.error "Invalid token" ≠ Body.error "Token has expired"
    ∧ Body.error "Authorization token is missing or invalid" ≠ Body.error "Invalid token" :=
  ⟨rfl, rfl, rfl, by decide, by decide⟩

/-- C4 amended: every one of the update-password authorization failures
(missing or non-Bearer header, expired token, invalid token, unknown
subject, stale token version, wrong old password) is rejected with
status 401, but each carries its own check-specific error message rather
than one generic message. -/
theorem C4_distinct_401_messages (db : DB) (tok : Token) (p : JwtPayload)
    (data : UpdateBody) (now : Nat) (key : String) (salt : Nat)
    (sf uf : Option String) (raw : String) (body : Option UpdateBody)
    (user : UserRecord) :
    update_password db .missing body now key salt sf uf
      = .ok ((401, .error "Authorization token is missing or invalid"), db)
    ∧ update_password db (.notBearer raw) body now key salt sf uf
      = .ok ((401, .error "Authorization token is missing or invalid"), db)
    ∧ (jwt.decode tok key now = .expired →
        update_password db (.bearer tok) body now key salt sf uf
          = .ok ((401, .error "Token has expired"), db))
    ∧ (jwt.decode tok key now = .invalid →
        update_password db (.bearer tok) body now key salt sf uf
          = .ok ((401, .error "Invalid token"), db))
    ∧ (jwt.decode tok key now = .ok p →
        falsy data.old_password = false → falsy data.new_password = false →
        db.findById p.sub = none →
        update_password db (.bearer tok) (some data) now key salt none uf
          = .ok ((401, .error "User not found"), db))
    ∧ (jwt.decode tok key now = .ok p →
        falsy data.old_password = false → falsy data.new_password = false →
        db.findById p.sub = some user →
        user.token_version ≠ p.token_version →
        update_password db (.bearer tok) (some data) now key salt none uf
          = .ok ((401, .error "Token version mismatch"), db))
    ∧ (jwt.decode tok key now = .ok p →
        falsy data.old_password = false → falsy data.new_password = false →
        db.findById p.sub = some user →
        user.token_version = p.token_version →
        checkpw (data.old_password.getD "") user.password_hash = false →
        update_password db (.bearer tok) (some data) now key salt none uf
          = .ok ((401, .error "Old password is incorrect"), db)) := by
  refine ⟨rfl, rfl, ?_, ?_, ?_, ?_, ?_⟩
  · exact upd_expired_eq db tok body now key salt sf uf
  · exact upd_invalid_eq db tok body now key salt sf uf
  · exact upd_userNotFound_eq db tok p data now key salt uf
  · exact upd_versionMismatch_eq db tok p data now key salt uf user
  · exact upd_wrongOldPassword_eq db tok p data now key salt uf user

theorem C4_distinct_401_messages_witness :
    update_password
        { users := [{ id := 1, login := "alice", password_hash := hashpw "old" 5,
                      token_version := 3 }], nextId := 2 }
        (.bearer (.signed { sub := "1", login := "alice", token_version := 2, exp := 99 } "k"))
        (some { old_password := some "old", new_password := some "new" }) 0 "k" 7 none none
      = .ok ((401, .error "Token version mismatch"),
          { users := [{ id := 1, login := "alice", password_hash := hashpw "old" 5,
                        token_version := 3 }], nextId := 2 }) :=
  ((C4_distinct_401_messages
      { users := [{ id := 1, login := "alice", password_hash := hashpw "old" 5,
                    token_version := 3 }], nextId := 2 }
      (.signed { sub := "1", login := "alice", token_version := 2, exp := 99 } "k")
      { sub := "1", login := "alice", token_version := 2, exp := 99 }
      { old_password := some "old", new_password := some "new" } 0 "k" 7 none none "x" none
      { id := 1, login := "alice", password_hash := hashpw "old" 5,
        token_version := 3 }).2.2.2.2.2.1
    (by rfl) (by rfl) (by rfl) (by rfl) (by decide))

/-- C5 counterexample: an injected storage exception in the INSERT of register
and in the UPDATE of update-password produces a 500 response whose body is
exactly the exception text, so internal detail of the failure is
returned to the client. -/
theorem C5_counterexample :
    register_user { users := [], nextId := 1 }
        (some { login := some "alice", password := some "pw" }) 3 none
        (some "FATAL: connection to server lost")
      = .ok ((500, .error "FATAL: connection to server lost"), { users := [], nextId := 1 })
    ∧ update_password
        { users := [{ id := 1, login := "alice", password_hash := hashpw "old" 5,
                      token_version := 0 }], nextId := 2 }
        (.bearer (.signed { sub := "1", login := "alice", token_version := 0, exp := 100 } "k"))
        (some { old_password := some "old", new_password := some "new" }) 0 "k" 7 none
        (some "could not serialize access due to concurrent update")
      = .ok ((500, .error "could not serialize access due to concurrent update"),
          { users := [{ id := 1, login := "alice", password_hash := hashpw "old" 5,
                        token_version := 0 }], nextId := 2 }) :=
  ⟨rfl, rfl⟩

/-- C5 amended: for every storage exception text e injected into a store
operation of register or update-password, the handler returns 500 with a
body holding exactly e, i.e. the raw exception text str(e) is leaked to
the client rather than hidden. -/
theorem C5_500_body_is_exception_text (db : DB) (rdata : RegisterBody)
    (udata : UpdateBody) (salt : Nat) (now : Nat) (key : String) (tok : Token)
    (p : JwtPayload) (e : String)
    (hrl : falsy rdata.login = false) (hrp : falsy rdata.password = false)
    (hdec : jwt.decode tok key now = .ok p)
    (ho : falsy udata.old_password = false)
    (hn : falsy udata.new_password = false) :
    register_user db (some rdata) salt (some e) none = .ok ((500, .error e), db)
    ∧ (db.findByLogin (rdata.login.getD "") = none →
        register_user db (some rdata) salt none (some e) = .ok ((500, .error e), db))
    ∧ update_password db (.bearer tok) (some udata) now key salt (some e) none
      = .ok ((500, .error e), db)
    ∧ (∀ user, db.findById p.sub = some user →
        user.token_version = p.token_version →
        checkpw (udata.old_password.getD "") user.password_hash = true →
        update_password db (.bearer tok) (some udata) now key salt none (some e)
          = .ok ((500, .error e), db)) := by
  refine ⟨?_, ?_, ?_, ?_⟩
  · simp only [register_user, hrl, hrp, Bool.or_false, Bool.false_eq_true, if_false]
  · intro hfind
    simp only [register_user, hrl, hrp, Bool.or_false, Bool.false_eq_true, if_false, hfind]
  · exact upd_selectFault_eq db tok p udata now key salt e none hdec ho hn
  · intro user hfind hv hpw
    exact upd_updateFault_eq db tok p udata now key salt e user hdec ho hn hfind hv hpw

theorem C5_500_body_is_exception_text_witness :
    update_password { users := [], nextId := 1 }
        (.bearer (.signed { sub := "1", login := "a", token_version := 0, exp := 9 } "k"))
        (some { old_password := some "x", new_password := some "y" }) 0 "k" 1
        (some "boom") none
      = .ok ((500, .error "boom"), { users := [], nextId := 1 }) :=
  (C5_500_body_is_exception_text { users := [], nextId := 1 }
      { login := some "l", password := some "q" }
      { old_password := some "x", new_password := some "y" } 1 0 "k"
      (.signed { sub := "1", login := "a", token_version := 0, exp := 9 } "k")
      { sub := "1", login := "a", token_version := 0, exp := 9 } "boom"
      (by decide) (by decide) (by rfl) (by decide) (by decide)).2.2.1

/-- C8 counterexample: a request whose bearer token verifies but whose
subject is absent from the store, with new_password missing, is answered
400 BadRequest, not 401 Unauthorized: the missing-field check runs
before the user lookup. -/
theorem C8_counterexample :
    (({ users := [], nextId := 1 } : DB).findById "1" = none)
    ∧ update_password { users := [], nextId := 1 }
        (.bearer (.signed { sub := "1", login := "alice", token_version := 0, exp := 100 } "k"))
        (some { old_password := some "x", new_password := none }) 0 "k" 1 none none
      = .ok ((400, .error "Old password and new password are required"),
          { users := [], nextId := 1 })
    ∧ (400 : Nat) ≠ 401 :=
  ⟨rfl, rfl, by decide⟩

/-- C8 amended: the missing-field BadRequest check of update-password
runs after token verification but before the user lookup, token-version
comparison and old-password check: whenever the bearer token verifies
and old_password or new_password is missing or empty, the response is
400 with the missing-fields message, whatever the store contains. -/
theorem C8_badrequest_before_store_checks (db : DB) (tok : Token)
    (p : JwtPayload) (data : UpdateBody) (now : Nat) (key : String) (salt : Nat)
    (sf uf : Option String)
    (hdec : jwt.decode tok key now = .ok p)
    (hm : falsy data.old_password = true ∨ falsy data.new_password = true) :
    update_password db (.bearer tok) (some data) now key salt sf uf
      = .ok ((400, .error "Old password and new password are required"), db) :=
  upd_badRequest_eq db tok p data now key salt sf uf hdec
    (by rcases hm with h | h <;> simp [h])

theorem C8_badrequest_before_store_checks_witness :
    update_password { users := [], nextId := 1 }
        (.bearer (.signed { sub := "1", login := "alice", token_version := 0, exp := 100 } "k"))
        (some { old_password := some "x", new_password := none }) 0 "k" 1 none none
      = .ok ((400, .error "Old password and new password are required"),
          { users := [], nextId := 1 }) :=
  C8_badrequest_before_store_checks { users := [], nextId := 1 }
    (.signed { sub := "1", login := "alice", token_version := 0, exp := 100 } "k")
    { sub := "1", login := "alice", token_version := 0, exp := 100 }
    { old_password := some "x", new_password := none } 0 "k" 1 none none
    (by rfl) (Or.inr (by decide))


/-- C2: the password update is a single atomic transition: whenever
update-password returns a response, either it is 200 and the store moved
in one step to the state where the subject row holds both the new hash
and the version incremented by exactly 1, or the response is an error
and the store is exactly unchanged; no state with only one of the two
columns updated is reachable. -/
theorem C2_atomic_update (db db' : DB) (hdr : AuthHeader) (body : Option UpdateBody)
    (now : Nat) (key : String) (salt : Nat) (sf uf : Option String) (res : Response)
    (h : update_password db hdr body now key salt sf uf = .ok (res, db')) :
    (res.1 = 200 ∧ ∃ p data user,
        hdr = .bearer (.signed p key) ∧ body = some data ∧
        db.findById p.sub = some user ∧
        db' = applyPasswordUpdate db p.sub (hashpw (data.new_password.getD "") salt) ∧
        db'.findById p.sub = some
          { user with password_hash := hashpw (data.new_password.getD "") salt,
                      token_version := user.token_version + 1 })
    ∨ (res.1 ≠ 200 ∧ db' = db) := by
  rcases update_password_cases db hdr body now key salt sf uf res db' h with
    ⟨h200, p, data, user, hhdr, _, hbody, _, _, _, _, hfind, _, _, _, hdb⟩ | herr
  · refine Or.inl ⟨h200, p, data, user, hhdr, hbody, hfind, hdb, ?_⟩
    rw [hdb, findById_applyPasswordUpdate, hfind]
    rfl
  · exact Or.inr herr

theorem C2_atomic_update_witness :
    (((200 : Nat), Body.message "Password updated successfully!").1 = 200 ∧ ∃ p data user,
        AuthHeader.bearer (Token.signed
            { sub := "1", login := "alice", token_version := 0, exp := 100 } "k")
          = .bearer (.signed p "k")
        ∧ (some { old_password := some "old", new_password := some "new" } :
            Option UpdateBody) = some data
        ∧ DB.findById
            { users := [{ id := 1, login := "alice", password_hash := hashpw "old" 5,
                          token_version := 0 }], nextId := 2 } p.sub = some user
        ∧ ({ users := [{ id := 1, login := "alice", password_hash := "7$new",
                         token_version := 1 }], nextId := 2 } : DB)
            = applyPasswordUpdate
                { users := [{ id := 1, login := "alice", password_hash := hashpw "old" 5,
                              token_version := 0 }], nextId := 2 }
                p.sub (hashpw (data.new_password.getD "") 7)
        ∧ DB.findById
            ({ users := [{ id := 1, login := "alice", password_hash := "7$new",
                           token_version := 1 }], nextId := 2 } : DB) p.sub
            = some { user with password_hash := hashpw (data.new_password.getD "") 7,
                               token_version := user.token_version + 1 })
    ∨ (((200 : Nat), Body.message "Password updated successfully!").1 ≠ 200
        ∧ ({ users := [{ id := 1, login := "alice", password_hash := "7$new",
                         token_version := 1 }], nextId := 2 } : DB)
            = { users := [{ id := 1, login := "alice", password_hash := hashpw "old" 5,
                            token_version := 0 }], nextId := 2 }) :=
  C2_atomic_update _ _ _ _ 0 "k" 7 none none _ (by rfl)

/-- C6: token_version is 0 on the row register creates, a successful
update-password moves the subject row to token_version + 1, and neither
handler ever decreases the token_version of any row. -/
theorem C6_token_version_lifecycle :
    (∀ (db : DB) (body : Option RegisterBody) (salt : Nat) (sf insf : Option String)
        (res : Response) (db' : DB),
      register_user db body salt sf insf = .ok (res, db') → res.1 = 201 →
      ∃ l ph, db'.users = db.users ++
          [{ id := db.nextId, login := l, password_hash := ph, token_version := 0 }])
    ∧ (∀ (db : DB) (hdr : AuthHeader) (body : Option UpdateBody) (now : Nat)
        (key : String) (salt : Nat) (sf uf : Option String) (res : Response) (db' : DB),
      update_password db hdr body now key salt sf uf = .ok (res, db') → res.1 = 200 →
      ∃ s user nh, db.findById s = some user ∧
        db'.findById s = some { user with password_hash := nh,
                                          token_version := user.token_version + 1 })
    ∧ (∀ (db : DB) (body : Option RegisterBody) (salt : Nat) (sf insf : Option String)
        (res : Response) (db' : DB),
      register_user db body salt sf insf = .ok (res, db') →
      ∀ u ∈ db.users, ∃ u' ∈ db'.users, u'.id = u.id ∧ u.token_version ≤ u'.token_version)
    ∧ (∀ (db : DB) (hdr : AuthHeader) (body : Option UpdateBody) (now : Nat)
        (key : String) (salt : Nat) (sf uf : Option String) (res : Response) (db' : DB),
      update_password db hdr body now key salt sf uf = .ok (res, db') →
      ∀ u ∈ db.users, ∃ u' ∈ db'.users, u'.id = u.id ∧ u.token_version ≤ u'.token_version) := by
  refine ⟨?_, ?_, ?_, ?_⟩
  · intro db body salt sf insf res db' h h201
    rcases register_user_cases db body salt sf insf res db' h with
      ⟨_, data, _, _, _, _, _, _, hdb⟩ | ⟨hne, _⟩
    · exact ⟨data.login.getD "", hashpw (data.password.getD "") salt, by rw [hdb]⟩
    · exact absurd h201 hne
  · intro db hdr body now key salt sf uf res db' h h200
    rcases update_password_cases db hdr body now key salt sf uf res db' h with
      ⟨_, p, data, user, _, _, _, _, _, _, _, hfind, _, _, _, hdb⟩ | ⟨hne, _⟩
    · refine ⟨p.sub, user, hashpw (data.new_password.getD "") salt, hfind, ?_⟩
      rw [hdb, findById_applyPasswordUpdate, hfind]
      rfl
    · exact absurd h200 hne
  · intro db body salt sf insf res db' h u hu
    rcases register_user_cases db body salt sf insf res db' h with
      ⟨_, data, _, _, _, _, _, _, hdb⟩ | ⟨_, hdb⟩
    · refine ⟨u, ?_, rfl, le_refl _⟩
      rw [hdb]
      exact List.mem_append_left _ hu
    · rw [hdb]
      exact ⟨u, hu, rfl, le_refl _⟩
  · intro db hdr body now key salt sf uf res db' h u hu
    rcases update_password_cases db hdr body now key salt sf uf res db' h with
      ⟨_, p, data, user, _, _, _, _, _, _, _, _, _, _, _, hdb⟩ | ⟨_, hdb⟩
    · rw [hdb]
      exact applyPasswordUpdate_mono db p.sub (hashpw (data.new_password.getD "") salt) u hu
    · rw [hdb]
      exact ⟨u, hu, rfl, le_refl _⟩

theorem C6_token_version_lifecycle_witness :
    ∃ l ph,
      ({ users := [{ id := 1, login := "alice", password_hash := hashpw "pw" 3,
                     token_version := 0 }], nextId := 2 } : DB).users
        = ({ users := [], nextId := 1 } : DB).users ++
            [{ id := ({ users := [], nextId := 1 } : DB).nextId, login := l,
               password_hash := ph, token_version := 0 }] :=
  C6_token_version_lifecycle.1 { users := [], nextId := 1 }
    (some { login := some "alice", password := some "pw" }) 3 none none
    ((201 : Nat), .message "User registered successfully!")
    { users := [{ id := 1, login := "alice", password_hash := hashpw "pw" 3,
                  token_version := 0 }], nextId := 2 }
    (by rfl) (by rfl)

/-- C1: after update-password succeeds with a 200 for the subject of
token payload p, any token for the same subject embedding a version no
newer than the pre-change stored version (any token issued before the
change), presented unexpired with a well-formed body, is rejected 401
with the version-mismatch error, while a token embedding the new stored
version (issued after the change), presented with the correct new
password, passes the version check and the request succeeds. -/
theorem C1_version_invalidation
    (db db' : DB) (p pOld pNew : JwtPayload) (data data2 data3 : UpdateBody)
    (now now2 now3 : Nat) (key : String) (salt salt2 salt3 : Nat) (m : Body)
    (hsucc : update_password db (.bearer (.signed p key)) (some data) now key salt none none
      = .ok ((200, m), db'))
    (hOldSub : pOld.sub = p.sub)
    (hOldVer : pOld.token_version ≤ p.token_version)
    (hOldFresh : now2 < pOld.exp)
    (h2old : falsy data2.old_password = false)
    (h2new : falsy data2.new_password = false)
    (hNewSub : pNew.sub = p.sub)
    (hNewVer : pNew.token_version = p.token_version + 1)
    (hNewFresh : now3 < pNew.exp)
    (h3old : falsy data3.old_password = false)
    (h3new : falsy data3.new_password = false)
    (h3pw : checkpw (data3.old_password.getD "")
        (hashpw (data.new_password.getD "") salt) = true) :
    update_password db' (.bearer (.signed pOld key)) (some data2) now2 key salt2 none none
      = .ok ((401, .error "Token version mismatch"), db')
    ∧ update_password db' (.bearer (.signed pNew key)) (some data3) now3 key salt3 none none
      = .ok ((200, .message "Password updated successfully!"),
          applyPasswordUpdate db' pNew.sub (hashpw (data3.new_password.getD "") salt3)) := by
  rcases update_password_cases db _ (some data) now key salt none none (200, m) db' hsucc with
    ⟨_, q, qdata, user, hhdr, _, hbody, _, _, _, _, hfind, hver, _, _, hdb⟩ | ⟨hne, _⟩
  · injection hhdr with htok
    injection htok with hq hk
    subst hq
    injection hbody with hdata
    subst hdata
    have hfind' : db'.findById p.sub = some
        { user with password_hash := hashpw (data.new_password.getD "") salt,
                    token_version := user.token_version + 1 } := by
      rw [hdb, findById_applyPasswordUpdate, hfind]
      rfl
    constructor
    · refine upd_versionMismatch_eq db' (.signed pOld key) pOld data2 now2 key salt2 none
        { user with password_hash := hashpw (data.new_password.getD "") salt,
                    token_version := user.token_version + 1 }
        (jwt.decode_signed_eq pOld key now2 hOldFresh) h2old h2new ?_ ?_
      · rw [hOldSub]
        exact hfind'
      · show user.token_version + 1 ≠ pOld.token_version
        omega
    · refine update_password_success_char db' (.signed pNew key) pNew data3 now3 key salt3
        { user with password_hash := hashpw (data.new_password.getD "") salt,
                    token_version := user.token_version + 1 }
        (jwt.decode_signed_eq pNew key now3 hNewFresh) h3old h3new ?_ ?_ ?_
      · rw [hNewSub]
        exact hfind'
      · show user.token_version + 1 = pNew.token_version
        omega
      · exact h3pw
  · exact absurd rfl hne

theorem C1_version_invalidation_witness :
    update_password
        { users := [{ id := 1, login := "alice", password_hash := "7$new",
                      token_version := 1 }], nextId := 2 }
        (.bearer (.signed { sub := "1", login := "alice", token_version := 0, exp := 50 } "k"))
        (some { old_password := some "old", new_password := some "b" }) 0 "k" 9 none none
      = .ok ((401, .error "Token version mismatch"),
          { users := [{ id := 1, login := "alice", password_hash := "7$new",
                        token_version := 1 }], nextId := 2 })
    ∧ update_password
        { users := [{ id := 1, login := "alice", password_hash := "7$new",
                      token_version := 1 }], nextId := 2 }
        (.bearer (.signed { sub := "1", login := "alice", token_version := 1, exp := 200 } "k"))
        (some { old_password := some "new", new_password := some "z" }) 0 "k" 4 none none
      = .ok ((200, .message "Password updated successfully!"),
          applyPasswordUpdate
            { users := [{ id := 1, login := "alice", password_hash := "7$new",
                          token_version := 1 }], nextId := 2 }
            "1" (hashpw "z" 4)) :=
  C1_version_invalidation
    { users := [{ id := 1, login := "alice", password_hash := hashpw "old" 5,
                  token_version := 0 }], nextId := 2 }
    { users := [{ id := 1, login := "alice", password_hash := "7$new",
                  token_version := 1 }], nextId := 2 }
    { sub := "1", login := "alice", token_version := 0, exp := 100 }
    { sub := "1", login := "alice", token_version := 0, exp := 50 }
    { sub := "1", login := "alice", token_version := 1, exp := 200 }
    { old_password := some "old", new_password := some "new" }
    { old_password := some "old", new_password := some "b" }
    { old_password := some "new", new_password := some "z" }
    0 0 0 "k" 7 9 4 (.message "Password updated successfully!")
    (by rfl) (by rfl) (by decide) (by decide) (by decide) (by decide) (by rfl)
    (by decide) (by decide) (by decide) (by decide) (by decide)

end App
